import Mathlib

/-!
Verification of the resilient scraped-table acquisition pipeline of the
Nintendo_Analysis repository.

The development shallowly embeds the data-collection scrapers:

* `scrape_metacritic_scores` models the Selenium-driven Metacritic scraper
  (`src/data_collection/metacritic_scraper.py`): its identity selection,
  driver setup, retry loop with jittered delays, extraction, CSV write and
  teardown.  Nondeterminism (the `random` module and the behaviour of the
  network/browser on each attempt) is supplied by an `Env` record; every run
  produces a trace of observable events (`Ev`).
* `scrape_vgchartz_game_rows` models the row-extraction loop of
  `src/data_collection/vgchartz_game_scraper.py`.
* `scrape_vgchartz_console_rows` models the row-extraction loop of
  `src/data_collection/vgchartz_scraper.py`, including its Nintendo-console
  name filter.
* `write_rows` models the `csv.DictWriter` persistence step shared by the
  scrapers (refuse on empty data, header from the first record's keys).
* `processGame` / `formatReleaseDate` model the per-game record construction
  of `src/data_collection/opencritic_scraper.py`, including the
  `datetime.fromisoformat` parse with its swallowed failure.
-/

/-- One record scraped from Metacritic: the fields appended at
`data.append({'Game': ..., 'Metascore': ..., 'Release Date': ...})`. -/
structure MetaRecord where
  game : String
  metascore : String
  releaseDate : String
deriving DecidableEq

/-- Outcome of one navigation attempt, as decided by the outside world:
`driver.get` raises a `WebDriverException` (`getErr`); the
`WebDriverWait` readiness probe raises `TimeoutException`, a subclass of
`WebDriverException` (`probeTimeout`); or the probe succeeds and
`find_elements` returns a list of game elements (`elements`), where each
element either yields its three fields (`some r`) or raises during field
extraction (`none`). -/
inductive AttemptWorld
  | getErr
  | probeTimeout
  | elements (games : List (Option MetaRecord))
deriving DecidableEq

/-- Observable events of one run: identity-provider invocations
(`get_random_user_agent`), `time.sleep` calls (recording the bounds the
delay was drawn from and the drawn value), navigations (`driver.get`,
recording the user agent the session presents), warning and error log
lines, the CSV write, and the `driver.quit()` teardown. -/
inductive Ev
  | idDraw (ua : String)
  | sleep (lo hi d : ℚ)
  | nav (ua : String)
  | logW (m : String)
  | logE (m : String)
  | fileWrite (recs : List MetaRecord)
  | quitOk
  | quitErr
deriving DecidableEq

/-- How the retry loop of `scrape_metacritic_scores` terminates: a
successful write followed by `break`, a plain `return` from inside the
`try` block, or an exception propagating out of the loop into the outer
`except` clause. -/
inductive LoopOut
  | wrote (recs : List MetaRecord)
  | returned
  | raised
deriving DecidableEq

/-- `random.uniform(a, b)`: the value returned for a unit draw `u ∈ [0,1]`. -/
def uniform (a b u : ℚ) : ℚ := a + u * (b - a)

/-- The retry loop of `scrape_metacritic_scores` (`for attempt in
range(max_retries)` with `max_retries = 3`).  `uni` is the stream of unit
draws consumed by `random.uniform`, `world` the outcome of each navigation
attempt, `ua` the user agent installed on the session before the loop.
Arguments: uniform-draw counter, attempt index, remaining iterations
(`fuel = 0` inside an iteration means `attempt == max_retries - 1`).
Each iteration: sleep `uniform(2,5)`; `driver.get` (may raise); sleep
`uniform(3,7)`; readiness probe (may time out); `find_elements`; if no
elements, log and retry (or log an error and return on the last attempt);
extract each game, skipping and logging ones that raise; if no data, log
and return; otherwise write and break.  A `WebDriverException` on a
non-final attempt logs a warning, sleeps `uniform(3,7)` and retries; on
the final attempt it is re-raised. -/
def metaLoop (uni : Nat → ℚ) (world : Nat → AttemptWorld) (ua : String) :
    Nat → Nat → Nat → List Ev × LoopOut
  | _, _, 0 => ([], LoopOut.returned)
  | uc, attempt, fuel + 1 =>
    let d1 := uniform 2 5 (uni uc)
    match world attempt with
    | AttemptWorld.getErr =>
      if fuel = 0 then
        ([Ev.sleep 2 5 d1, Ev.nav ua], LoopOut.raised)
      else
        let d2 := uniform 3 7 (uni (uc + 1))
        let r := metaLoop uni world ua (uc + 2) (attempt + 1) fuel
        (Ev.sleep 2 5 d1 :: Ev.nav ua :: Ev.logW "WebDriver error" ::
          Ev.sleep 3 7 d2 :: r.1, r.2)
    | AttemptWorld.probeTimeout =>
      let dP := uniform 3 7 (uni (uc + 1))
      if fuel = 0 then
        ([Ev.sleep 2 5 d1, Ev.nav ua, Ev.sleep 3 7 dP], LoopOut.raised)
      else
        let d2 := uniform 3 7 (uni (uc + 2))
        let r := metaLoop uni world ua (uc + 3) (attempt + 1) fuel
        (Ev.sleep 2 5 d1 :: Ev.nav ua :: Ev.sleep 3 7 dP ::
          Ev.logW "WebDriver error" :: Ev.sleep 3 7 d2 :: r.1, r.2)
    | AttemptWorld.elements gs =>
      let dP := uniform 3 7 (uni (uc + 1))
      if gs.isEmpty then
        if fuel = 0 then
          ([Ev.sleep 2 5 d1, Ev.nav ua, Ev.sleep 3 7 dP,
            Ev.logE "No game elements found"], LoopOut.returned)
        else
          let r := metaLoop uni world ua (uc + 2) (attempt + 1) fuel
          (Ev.sleep 2 5 d1 :: Ev.nav ua :: Ev.sleep 3 7 dP ::
            Ev.logW "No game elements found, retrying" :: r.1, r.2)
      else
        let data := gs.filterMap id
        let rowLogs := (gs.filter (fun g => g.isNone)).map
          (fun _ => Ev.logW "Error processing game")
        if data.isEmpty then
          (Ev.sleep 2 5 d1 :: Ev.nav ua :: Ev.sleep 3 7 dP ::
            (rowLogs ++ [Ev.logW "No game data found."]), LoopOut.returned)
        else
          (Ev.sleep 2 5 d1 :: Ev.nav ua :: Ev.sleep 3 7 dP ::
            (rowLogs ++ [Ev.fileWrite data]), LoopOut.wrote data)

/-- The environment a run of the Metacritic scraper executes in: whether
the ChromeDriver binary exists at `~/bin/chromedriver`, the index stream
consumed by `random.choice` in `get_random_user_agent`, the unit-draw
stream consumed by `random.uniform`, the outcome of each navigation
attempt, and whether `driver.quit()` raises during teardown. -/
structure Env where
  driverAvailable : Bool
  idCh : Nat → Nat
  uni : Nat → ℚ
  world : Nat → AttemptWorld
  quitRaises : Bool

/-- The static candidate pool of `get_random_user_agent`. -/
def user_agents : List String := [
  "Mozilla/5.0 (Windows NT 10.0; Win64; x64) AppleWebKit/537.36 (KHTML, like Gecko) Chrome/137.0.7151.68 Safari/537.36",
  "Mozilla/5.0 (Windows NT 10.0; Win64; x64) AppleWebKit/537.36 (KHTML, like Gecko) Chrome/136.0.0.0 Safari/537.36",
  "Mozilla/5.0 (Macintosh; Intel Mac OS X 10_15_7) AppleWebKit/537.36 (KHTML, like Gecko) Chrome/137.0.7151.68 Safari/537.36",
  "Mozilla/5.0 (Windows NT 10.0; Win64; x64; rv:109.0) Gecko/20100101 Firefox/115.0"]

/-- `get_random_user_agent()`: `random.choice(user_agents)`, the choice
index supplied by the environment's stream. -/
def get_random_user_agent (i : Nat) : String :=
  user_agents.getD (i % user_agents.length) ""

/-- Result of one run: the event trace, the content written to the output
file (`none` when nothing was written this run), and whether
`driver.quit()` was reached. -/
structure RunResult where
  trace : List Ev
  file : Option (List (List String))
  quitCalled : Bool

/-- The persistence step shared by the scrapers: `if not data: return`
followed by `csv.DictWriter(f, fieldnames=data[0].keys())`,
`writeheader()`, `writerows(data)`.  A record is an ordered list of
(field name, value) pairs, as a Python dict preserves insertion order;
`writerows` emits each record's values looked up per field name. -/
def write_rows (data : List (List (String × String))) : Option (List (List String)) :=
  match data with
  | [] => none
  | first :: _ =>
    let fieldnames := first.map Prod.fst
    some (fieldnames :: data.map (fun r =>
      fieldnames.map (fun k => (((r.find? (fun kv => kv.1 == k)).map Prod.snd).getD ""))))

/-- The dict appended for one Metacritic game, in insertion order. -/
def metaToDict (r : MetaRecord) : List (String × String) :=
  [("Game", r.game), ("Metascore", r.metascore), ("Release Date", r.releaseDate)]

/-- The events of the outer `except` clause: it logs an error exactly
when the loop re-raised on its final attempt. -/
def runTailEvs (o : LoopOut) : List Ev :=
  match o with
  | LoopOut.raised => [Ev.logE "An error occurred"]
  | _ => []

/-- The teardown events of the `finally` block: `driver.quit()` either
succeeds or raises, and a raised teardown error is logged and
swallowed. -/
def runQuitEvs (quitRaises : Bool) : List Ev :=
  if quitRaises then [Ev.quitErr, Ev.logW "Error while closing driver"] else [Ev.quitOk]

/-- The output-file effect of a run: only a loop that reached the write
produces a file, written by the `csv.DictWriter` step. -/
def runFile (o : LoopOut) : Option (List (List String)) :=
  match o with
  | LoopOut.wrote data => write_rows (data.map metaToDict)
  | _ => none

/-- `scrape_metacritic_scores()`.  `setup_driver` first invokes the
identity provider for the `--user-agent` launch option, then checks for
the ChromeDriver binary and returns `None` if it is absent, upon which
the function returns at once (no navigation, no teardown).  Otherwise the
CDP `Network.setUserAgentOverride` invokes the identity provider a second
time; that user agent is the one the session presents on every
navigation.  The retry loop runs with `max_retries = 3`; a raised
exception is caught by the outer `except` and logged (`runTailEvs`); the
`finally` block always calls `driver.quit()`, and an error raised while
closing is logged and swallowed (`runQuitEvs`). -/
def scrape_metacritic_scores (e : Env) : RunResult :=
  let ua0 := get_random_user_agent (e.idCh 0)
  if e.driverAvailable then
    let ua1 := get_random_user_agent (e.idCh 1)
    let r := metaLoop e.uni e.world ua1 0 0 3
    { trace := Ev.idDraw ua0 :: Ev.idDraw ua1 ::
        (r.1 ++ runTailEvs r.2 ++ runQuitEvs e.quitRaises),
      file := runFile r.2,
      quitCalled := true }
  else
    { trace := [Ev.idDraw ua0, Ev.logE "ChromeDriver not found"], file := none,
      quitCalled := false }

/-- The user agent presented by a navigation event, if any. -/
def navUA? (e : Ev) : Option String :=
  match e with
  | Ev.nav ua => some ua
  | _ => none

/-- User agents presented by the navigations of a trace, in order. -/
def navUAs (t : List Ev) : List String := t.filterMap navUA?

/-- Whether an event is a navigation. -/
def isNavEv (e : Ev) : Bool := (navUA? e).isSome

/-- Number of navigation attempts recorded in a trace. -/
def navCount (t : List Ev) : Nat := t.countP isNavEv

/-- The user agent chosen by an identity-provider invocation, if any. -/
def idDrawUA? (e : Ev) : Option String :=
  match e with
  | Ev.idDraw ua => some ua
  | _ => none

/-- Identities chosen by the identity-provider invocations of a trace. -/
def idDraws (t : List Ev) : List String := t.filterMap idDrawUA?

/-- Helper for `interAttemptDelays`: `seen` records whether a navigation
has occurred; `pend` collects delays slept since the last navigation,
flushed to `acc` when the next navigation happens. -/
def interGo (seen : Bool) (pend acc : List ℚ) : List Ev → List ℚ
  | [] => acc
  | Ev.nav _ :: rest => interGo true [] (acc ++ pend) rest
  | Ev.sleep _ _ d :: rest => interGo seen (if seen then pend ++ [d] else pend) acc rest
  | _ :: rest => interGo seen pend acc rest

/-- All delays slept strictly between one navigation attempt and the
next, i.e. between a failed attempt and the retry that follows it. -/
def interAttemptDelays (t : List Ev) : List ℚ := interGo false [] [] t

/-- The attempt outcomes the retry loop treats as retryable failures: a
transport error, a readiness-probe timeout, or an empty element list. -/
def retryFailure (w : AttemptWorld) : Prop :=
  w = AttemptWorld.getErr ∨ w = AttemptWorld.probeTimeout ∨
    w = AttemptWorld.elements []

/-- One record extracted by the VGChartz game-sales scraper
(`data.append({'Game': cols[1], 'Platform': cols[2], 'Publisher':
cols[3], 'Developer': cols[4], 'Total Sales (M)': cols[5], 'Release
Date': cols[6]})`). -/
structure VGGameRecord where
  game : String
  platform : String
  publisher : String
  developer : String
  totalSales : String
  releaseDate : String
deriving DecidableEq

/-- The malformed-row test shared by both VGChartz scrapers:
`if not cols or len(cols) < 7: ... continue` — the row is processed only
when this rejection condition is false. -/
def vg_rowOk (cols : List String) : Bool :=
  !(cols.isEmpty || decide (cols.length < 7))

/-- Field mapping of one well-formed VGChartz game row. -/
def vg_toRecord (cols : List String) : VGGameRecord :=
  { game := cols.getD 1 "", platform := cols.getD 2 "", publisher := cols.getD 3 "",
    developer := cols.getD 4 "", totalSales := cols.getD 5 "", releaseDate := cols.getD 6 "" }

/-- The row-extraction loop of `scrape_vgchartz_game_sales` (lines
162-180): each row's cell texts are mapped onto the record fields; a row
failing the malformed-row test is logged (returned in the second
component, the warnings, in row order) and skipped, and the loop
continues with the next row. -/
def scrape_vgchartz_game_rows : List (List String) → List VGGameRecord × List (List String)
  | [] => ([], [])
  | cols :: rest =>
    let r := scrape_vgchartz_game_rows rest
    if vg_rowOk cols then (vg_toRecord cols :: r.1, r.2)
    else (r.1, cols :: r.2)

/-- One record extracted by the VGChartz console-sales scraper. -/
structure ConsoleRecord where
  console : String
  northAmerica : String
  europe : String
  japan : String
  restOfWorld : String
  totalSales : String
deriving DecidableEq

/-- Python's substring test `sub in hay` on character lists. -/
def listContains (hay sub : List Char) : Bool :=
  sub.isPrefixOf hay ||
    match hay with
    | [] => false
    | _ :: t => listContains t sub

/-- Python's `sub in s` on strings. -/
def pyInStr (sub s : String) : Bool := listContains s.toList sub.toList

/-- The fixed console-name list of `vgchartz_scraper.py`. -/
def NINTENDO_CONSOLES : List String :=
  ["Switch", "Wii", "Wii U", "3DS", "DS", "GameCube", "N64", "SNES", "NES",
   "Game Boy", "Game Boy Advance", "Virtual Boy"]

/-- `any(console in name for console in NINTENDO_CONSOLES)`. -/
def console_matches (name : String) : Bool :=
  NINTENDO_CONSOLES.any (fun c => pyInStr c name)

/-- Field mapping of one accepted VGChartz console row. -/
def console_toRecord (cols : List String) : ConsoleRecord :=
  { console := cols.getD 1 "", northAmerica := cols.getD 2 "", europe := cols.getD 3 "",
    japan := cols.getD 4 "", restOfWorld := cols.getD 5 "", totalSales := cols.getD 6 "" }

/-- The row loop of `scrape_vgchartz_console_sales` (lines 30-44): a row
failing the malformed-row test is logged (second component) and skipped;
a well-formed row is appended exactly when its name cell `cols[1]`
contains one of the `NINTENDO_CONSOLES` as a substring, and is otherwise
dropped with no log line. -/
def scrape_vgchartz_console_rows : List (List String) → List ConsoleRecord × List (List String)
  | [] => ([], [])
  | cols :: rest =>
    let r := scrape_vgchartz_console_rows rest
    if vg_rowOk cols then
      if console_matches (cols.getD 1 "") then (console_toRecord cols :: r.1, r.2)
      else (r.1, r.2)
    else (r.1, cols :: r.2)

/-- Numeric value of a decimal digit character. -/
def digitVal? (c : Char) : Option Nat :=
  if c.isDigit then some (c.toNat - 48) else none

/-- Two decimal digits. -/
def parse2 (a b : Char) : Option Nat :=
  match digitVal? a, digitVal? b with
  | some x, some y => some (10 * x + y)
  | _, _ => none

/-- Four decimal digits. -/
def parse4 (a b c d : Char) : Option Nat :=
  match parse2 a b, parse2 c d with
  | some x, some y => some (100 * x + y)
  | _, _ => none

/-- Gregorian leap-year test, as in `datetime`. -/
def isLeap (y : Nat) : Bool :=
  (y % 4 == 0 && y % 100 != 0) || y % 400 == 0

/-- Days in a month, as validated by the `datetime` constructor. -/
def daysInMonth (y m : Nat) : Nat :=
  if m = 2 then (if isLeap y then 29 else 28)
  else if m = 4 || m = 6 || m = 9 || m = 11 then 30
  else 31

/-- A trailing UTC-offset suffix `±HH:MM` of an ISO time string, or no
suffix at all. -/
def offsetOk (t : List Char) : Bool :=
  match t with
  | [] => true
  | s :: h1 :: h2 :: ':' :: m1 :: m2 :: [] =>
    (s == '+' || s == '-') &&
      (match parse2 h1 h2, parse2 m1 m2 with
       | some hh, some mm => decide (hh ≤ 23) && decide (mm ≤ 59)
       | _, _ => false)
  | _ => false

/-- The time part accepted by `datetime.fromisoformat` after the date and
separator: `HH[:MM[:SS[.fff[fff]]]]` with an optional `±HH:MM` offset. -/
def parseTime (t : List Char) : Bool :=
  match t with
  | h1 :: h2 :: rest =>
    match parse2 h1 h2 with
    | some hh =>
      decide (hh ≤ 23) &&
        (match rest with
         | [] => true
         | ':' :: m1 :: m2 :: rest2 =>
           (match parse2 m1 m2 with
            | some mm =>
              decide (mm ≤ 59) &&
                (match rest2 with
                 | [] => true
                 | ':' :: s1 :: s2 :: rest3 =>
                   (match parse2 s1 s2 with
                    | some ss =>
                      decide (ss ≤ 59) &&
                        (match rest3 with
                         | [] => true
                         | '.' :: rest4 =>
                           let frac := rest4.takeWhile Char.isDigit
                           (decide (frac.length = 3) || decide (frac.length = 6)) &&
                             offsetOk (rest4.dropWhile Char.isDigit)
                         | other => offsetOk other)
                    | none => false)
                 | other => offsetOk other)
            | none => false)
         | other => offsetOk other)
    | none => false
  | _ => false

/-- `datetime.fromisoformat`: a `YYYY-MM-DD` date (validated against the
calendar, year at least 1), optionally followed by a single separator
character and a valid time part.  Returns the (year, month, day)
components that `strftime('%Y-%m-%d')` will print. -/
def fromisoformat (s : List Char) : Option (Nat × Nat × Nat) :=
  match s with
  | y1 :: y2 :: y3 :: y4 :: '-' :: m1 :: m2 :: '-' :: d1 :: d2 :: rest =>
    match parse4 y1 y2 y3 y4, parse2 m1 m2, parse2 d1 d2 with
    | some y, some m, some d =>
      if 1 ≤ y ∧ 1 ≤ m ∧ m ≤ 12 ∧ 1 ≤ d ∧ d ≤ daysInMonth y m then
        match rest with
        | [] => some (y, m, d)
        | _ :: timeRest => if parseTime timeRest then some (y, m, d) else none
      else none
    | _, _, _ => none
  | _ => none

/-- `release_date.replace('Z', '+00:00')`. -/
def replaceZ : List Char → List Char
  | [] => []
  | c :: rest =>
    if c = 'Z' then '+' :: '0' :: '0' :: ':' :: '0' :: '0' :: replaceZ rest
    else c :: replaceZ rest

/-- Zero-padding of a digit string to a given width. -/
def padZeros (w : Nat) (s : List Char) : List Char :=
  List.replicate (w - s.length) '0' ++ s

/-- `strftime('%Y-%m-%d')` on a parsed date. -/
def strftimeYmd (ymd : Nat × Nat × Nat) : String :=
  List.asString (padZeros 4 (Nat.toDigits 10 ymd.1) ++ '-' ::
    (padZeros 2 (Nat.toDigits 10 ymd.2.1) ++ '-' :: padZeros 2 (Nat.toDigits 10 ymd.2.2)))

/-- The release-date conversion of `scrape_opencritic_scores` (lines
74-78): when the raw value is non-empty, try
`datetime.fromisoformat(release_date.replace('Z', '+00:00'))` and
reformat as `%Y-%m-%d`; on any parse error the bare `except` coerces the
field to the empty string.  An empty raw value is kept as is. -/
def formatReleaseDate (raw : String) : String :=
  if raw = "" then raw
  else
    match fromisoformat (replaceZ raw.toList) with
    | some ymd => strftimeYmd ymd
    | none => ""

/-- The detail payload fetched for one OpenCritic game; `none` fields are
absent JSON keys, read through `.get` with defaults. -/
structure GameDetails where
  name : Option String
  topCriticScore : Option ℚ
  firstReleaseDate : Option String

/-- One record appended by the OpenCritic scraper. -/
structure OCRecord where
  game : String
  score : ℚ
  releaseDate : String
deriving DecidableEq

/-- Construction of one OpenCritic record (lines 69-84): field defaults
via `.get`, then the release-date conversion; the record is appended
regardless of whether the date parsed. -/
def processGame (g : GameDetails) : OCRecord :=
  { game := g.name.getD "",
    score := g.topCriticScore.getD 0,
    releaseDate := formatReleaseDate (g.firstReleaseDate.getD "") }

/-- The per-game loop of `scrape_opencritic_scores`: a game whose detail
fetch raises (`none`) is logged and skipped by the per-game `except`; a
fetched game is processed and appended. -/
def oc_extract : List (Option GameDetails) → List OCRecord
  | [] => []
  | none :: rest => oc_extract rest
  | some g :: rest => processGame g :: oc_extract rest

/-- A sample well-formed Metacritic record used by concrete runs. -/
def sampleRec : MetaRecord := { game := "G", metascore := "90", releaseDate := "2020" }

/-- Concrete environment: first attempt raises a transport error, the
second succeeds; distinct choice-stream values at every index. -/
def envRetryOnce : Env where
  driverAvailable := true
  idCh := fun n => n
  uni := fun _ => 0
  world := fun n =>
    if n = 0 then AttemptWorld.getErr else AttemptWorld.elements [some sampleRec]
  quitRaises := false

/-- Concrete environment: every attempt raises a transport error. -/
def envAllFail : Env where
  driverAvailable := true
  idCh := fun _ => 0
  uni := fun _ => 0
  world := fun _ => AttemptWorld.getErr
  quitRaises := false

/-- Concrete environment: the ChromeDriver binary is absent. -/
def envNoDriver : Env where
  driverAvailable := false
  idCh := fun _ => 0
  uni := fun _ => 0
  world := fun _ => AttemptWorld.getErr
  quitRaises := false

/-- Concrete environment: teardown (`driver.quit()`) raises. -/
def envQuitRaises : Env where
  driverAvailable := true
  idCh := fun _ => 0
  uni := fun _ => 0
  world := fun _ => AttemptWorld.elements [some sampleRec]
  quitRaises := true

/-- Concrete environment: the first attempt finds game elements but every
one of them raises during field extraction, so zero records are
accepted; later attempts would succeed. -/
def envEmptyData : Env where
  driverAvailable := true
  idCh := fun _ => 0
  uni := fun _ => 0
  world := fun n =>
    if n = 0 then AttemptWorld.elements [none]
    else AttemptWorld.elements [some sampleRec]
  quitRaises := false

/-- Concrete environment: the first attempt finds zero game elements,
the second succeeds. -/
def envNoElements : Env where
  driverAvailable := true
  idCh := fun _ => 0
  uni := fun _ => 0
  world := fun n =>
    if n = 0 then AttemptWorld.elements [] else AttemptWorld.elements [some sampleRec]
  quitRaises := false

/-- Concrete environment: every unit draw is 1, so each `uniform(3,7)`
sleep lasts 7 seconds; the first attempt raises a transport error. -/
def envJitterHigh : Env where
  driverAvailable := true
  idCh := fun _ => 0
  uni := fun _ => 1
  world := fun n =>
    if n = 0 then AttemptWorld.getErr else AttemptWorld.elements [some sampleRec]
  quitRaises := false

/-- A well-formed VGChartz row (7 cells). -/
def goodRow : List String := ["1", "Game A", "NS", "Pub", "Dev", "5.0", "2020"]

/-- A malformed VGChartz row (1 cell). -/
def badRow : List String := ["x"]

/-- Fifty rows, three of which are under the minimum column count. -/
def rows50 : List (List String) :=
  List.replicate 47 goodRow ++ List.replicate 3 badRow

/-- A well-formed console row whose name cell names a Nintendo console. -/
def consoleRowSwitch : List String :=
  ["1", "Nintendo Switch", "46.0", "31.0", "25.0", "15.0", "117.0"]

/-- OpenCritic details with an unparseable release date. -/
def gameBadDate : GameDetails :=
  { name := some "Bad", topCriticScore := some 80, firstReleaseDate := some "not-a-date" }

/-- OpenCritic details with a parseable ISO release date. -/
def gameGoodDate : GameDetails :=
  { name := some "Good", topCriticScore := some 91,
    firstReleaseDate := some "2017-03-03T00:00:00.000Z" }

/-- Invariant of a single trace event: any sleep was drawn either from
the pre-attempt jitter window [2,5] or from the post-load and
post-failure window [3,7], and its duration lies within the window it
was drawn from. -/
def sleepOk (ev : Ev) : Prop :=
  match ev with
  | Ev.sleep lo hi d => ((lo = 2 ∧ hi = 5) ∨ (lo = 3 ∧ hi = 7)) ∧ lo ≤ d ∧ d ≤ hi
  | _ => True

@[simp] theorem isNavEv_idDraw (ua : String) : isNavEv (Ev.idDraw ua) = false := rfl

@[simp] theorem isNavEv_sleep (lo hi d : ℚ) : isNavEv (Ev.sleep lo hi d) = false := rfl

@[simp] theorem isNavEv_nav (ua : String) : isNavEv (Ev.nav ua) = true := rfl

@[simp] theorem isNavEv_logW (m : String) : isNavEv (Ev.logW m) = false := rfl

@[simp] theorem isNavEv_logE (m : String) : isNavEv (Ev.logE m) = false := rfl

@[simp] theorem isNavEv_fileWrite (recs : List MetaRecord) : isNavEv (Ev.fileWrite recs) = false := rfl

@[simp] theorem isNavEv_quitOk : isNavEv Ev.quitOk = false := rfl

@[simp] theorem isNavEv_quitErr : isNavEv Ev.quitErr = false := rfl

@[simp] theorem navCount_nil : navCount [] = 0 := rfl

theorem navCount_cons (e : Ev) (t : List Ev) :
    navCount (e :: t) = navCount t + if isNavEv e then 1 else 0 :=
  List.countP_cons isNavEv e t

theorem navCount_append (s t : List Ev) :
    navCount (s ++ t) = navCount s + navCount t :=
  List.countP_append isNavEv s t

theorem navCount_rowLogs (gs : List (Option MetaRecord)) :
    navCount ((gs.filter (fun g => g.isNone)).map (fun _ => Ev.logW "Error processing game")) = 0 := by
  simp only [navCount]
  rw [List.countP_eq_zero]
  intro x hx
  rcases List.mem_map.mp hx with ⟨g, _, hg⟩
  simp [← hg]

theorem navCount_replicate_logW (k : Nat) (m : String) :
    navCount (List.replicate k (Ev.logW m)) = 0 := by
  simp only [navCount]
  rw [List.countP_eq_zero]
  intro x hx
  rcases List.mem_replicate.mp hx with ⟨-, rfl⟩
  simp

theorem metaLoop_nav_le (uni : Nat → ℚ) (world : Nat → AttemptWorld) (ua : String) :
    ∀ fuel uc attempt, navCount (metaLoop uni world ua uc attempt fuel).1 ≤ fuel := by
  intro fuel
  induction fuel with
  | zero => intro uc attempt; simp [metaLoop]
  | succ n ih =>
    intro uc attempt
    simp only [metaLoop]
    cases h : world attempt with
    | getErr =>
      by_cases hn : n = 0
      · subst hn; simp [navCount_cons]
      · have := ih (uc + 2) (attempt + 1)
        simp only [if_neg hn]
        simp [navCount_cons]
        omega
    | probeTimeout =>
      by_cases hn : n = 0
      · subst hn; simp [navCount_cons]
      · have := ih (uc + 3) (attempt + 1)
        simp only [if_neg hn]
        simp [navCount_cons]
        omega
    | elements gs =>
      by_cases he : gs.isEmpty
      · by_cases hn : n = 0
        · subst hn; simp [he, navCount_cons]
        · have := ih (uc + 2) (attempt + 1)
          simp only [he, if_pos, if_neg hn]
          simp [navCount_cons]
          omega
      · by_cases hd : (gs.filterMap id).isEmpty
        · simp only [if_neg he, hd, if_pos]
          simp [navCount_cons, navCount_append, navCount_replicate_logW]
        · simp only [if_neg he, hd, if_neg]
          simp [navCount_cons, navCount_append, navCount_replicate_logW]

theorem metaLoop_nav_pos (uni : Nat → ℚ) (world : Nat → AttemptWorld) (ua : String)
    (fuel uc attempt : Nat) (hf : 0 < fuel) :
    0 < navCount (metaLoop uni world ua uc attempt fuel).1 := by
  cases fuel with
  | zero => omega
  | succ n =>
    simp only [metaLoop]
    cases h : world attempt with
    | getErr =>
      by_cases hn : n = 0 <;> simp [hn, navCount_cons]
    | probeTimeout =>
      by_cases hn : n = 0 <;> simp [hn, navCount_cons]
    | elements gs =>
      by_cases he : gs.isEmpty
      · by_cases hn : n = 0 <;> simp [he, hn, navCount_cons]
      · by_cases hd : (gs.filterMap id).isEmpty <;>
          simp [he, hd, navCount_cons, navCount_append]

theorem idDraws_nil : idDraws [] = [] := rfl

theorem idDraws_replicate_logW (k : Nat) (m : String) :
    idDraws (List.replicate k (Ev.logW m)) = [] := by
  induction k with
  | zero => rfl
  | succ n ih => simpa [idDraws, List.replicate, idDrawUA?] using ih

theorem navUAs_replicate_logW (k : Nat) (m : String) :
    navUAs (List.replicate k (Ev.logW m)) = [] := by
  induction k with
  | zero => rfl
  | succ n ih => simpa [navUAs, List.replicate, navUA?] using ih

theorem metaLoop_no_idDraw (uni : Nat → ℚ) (world : Nat → AttemptWorld) (ua : String) :
    ∀ fuel uc attempt, idDraws (metaLoop uni world ua uc attempt fuel).1 = [] := by
  intro fuel
  induction fuel with
  | zero => intro uc attempt; simp [metaLoop, idDraws]
  | succ n ih =>
    intro uc attempt
    simp only [metaLoop]
    cases h : world attempt with
    | getErr =>
      by_cases hn : n = 0
      · subst hn; simp [idDraws, idDrawUA?]
      · simp only [if_neg hn]
        simpa [idDraws, idDrawUA?, List.filterMap_append] using ih (uc + 2) (attempt + 1)
    | probeTimeout =>
      by_cases hn : n = 0
      · subst hn; simp [idDraws, idDrawUA?]
      · simp only [if_neg hn]
        simpa [idDraws, idDrawUA?, List.filterMap_append] using ih (uc + 3) (attempt + 1)
    | elements gs =>
      by_cases he : gs.isEmpty
      · by_cases hn : n = 0
        · subst hn; simp [he, idDraws, idDrawUA?]
        · simp only [he, if_pos, if_neg hn]
          simpa [idDraws, idDrawUA?, List.filterMap_append] using ih (uc + 2) (attempt + 1)
      · by_cases hd : (gs.filterMap id).isEmpty
        · simp only [if_neg he, hd, if_pos]
          simpa [idDraws, idDrawUA?, List.filterMap_append] using
            idDraws_replicate_logW (gs.filter (fun g => g.isNone)).length "Error processing game"
        · simp only [if_neg he, hd, if_neg]
          simpa [idDraws, idDrawUA?, List.filterMap_append] using
            idDraws_replicate_logW (gs.filter (fun g => g.isNone)).length "Error processing game"

theorem metaLoop_navUA_eq (uni : Nat → ℚ) (world : Nat → AttemptWorld) (ua : String) :
    ∀ fuel uc attempt x, x ∈ navUAs (metaLoop uni world ua uc attempt fuel).1 → x = ua := by
  intro fuel
  induction fuel with
  | zero => intro uc attempt x hx; simp [metaLoop, navUAs] at hx
  | succ n ih =>
    intro uc attempt x hx
    simp only [metaLoop] at hx
    cases h : world attempt with
    | getErr =>
      rw [h] at hx
      by_cases hn : n = 0
      · subst hn; simp [navUAs, navUA?] at hx; exact hx
      · simp only [if_neg hn] at hx
        simp [navUAs, navUA?, List.filterMap_append] at hx
        rcases hx with rfl | hx
        · rfl
        · exact ih (uc + 2) (attempt + 1) x (by simpa [navUAs] using hx)
    | probeTimeout =>
      rw [h] at hx
      by_cases hn : n = 0
      · subst hn; simp [navUAs, navUA?] at hx; exact hx
      · simp only [if_neg hn] at hx
        simp [navUAs, navUA?, List.filterMap_append] at hx
        rcases hx with rfl | hx
        · rfl
        · exact ih (uc + 3) (attempt + 1) x (by simpa [navUAs] using hx)
    | elements gs =>
      rw [h] at hx
      by_cases he : gs.isEmpty
      · by_cases hn : n = 0
        · subst hn; simp [he, navUAs, navUA?] at hx; exact hx
        · simp only [he, if_pos, if_neg hn] at hx
          simp [navUAs, navUA?, List.filterMap_append] at hx
          rcases hx with rfl | hx
          · rfl
          · exact ih (uc + 2) (attempt + 1) x (by simpa [navUAs] using hx)
      · by_cases hd : (gs.filterMap id).isEmpty
        · simp only [if_neg he, hd, if_pos] at hx
          simp [navUAs, navUA?, List.filterMap_append] at hx
          rcases hx with rfl | hx
          · rfl
        · simp only [if_neg he, hd, if_neg] at hx
          simp [navUAs, navUA?, List.filterMap_append] at hx
          rcases hx with rfl | hx
          · rfl

theorem metaLoop_wrote_ne_nil (uni : Nat → ℚ) (world : Nat → AttemptWorld) (ua : String) :
    ∀ fuel uc attempt data,
      (metaLoop uni world ua uc attempt fuel).2 = LoopOut.wrote data → data ≠ [] := by
  intro fuel
  induction fuel with
  | zero => intro uc attempt data hw; simp [metaLoop] at hw
  | succ n ih =>
    intro uc attempt data hw
    simp only [metaLoop] at hw
    cases h : world attempt with
    | getErr =>
      rw [h] at hw
      by_cases hn : n = 0
      · subst hn; simp at hw
      · simp only [if_neg hn] at hw
        exact ih (uc + 2) (attempt + 1) data hw
    | probeTimeout =>
      rw [h] at hw
      by_cases hn : n = 0
      · subst hn; simp at hw
      · simp only [if_neg hn] at hw
        exact ih (uc + 3) (attempt + 1) data hw
    | elements gs =>
      rw [h] at hw
      by_cases he : gs.isEmpty
      · by_cases hn : n = 0
        · subst hn; simp [he] at hw
        · simp only [he, if_pos, if_neg hn] at hw
          exact ih (uc + 2) (attempt + 1) data hw
      · by_cases hd : (gs.filterMap id).isEmpty
        · simp only [if_neg he, hd, if_pos] at hw
          simp at hw
        · simp only [if_neg he, hd, if_neg] at hw
          simp at hw
          subst hw
          simpa [List.isEmpty_iff] using hd

theorem metaLoop_all_fail (uni : Nat → ℚ) (world : Nat → AttemptWorld) (ua : String) :
    ∀ fuel uc attempt, (∀ k, k < fuel → retryFailure (world (attempt + k))) →
      navCount (metaLoop uni world ua uc attempt fuel).1 = fuel
      ∧ (∀ data, (metaLoop uni world ua uc attempt fuel).2 ≠ LoopOut.wrote data)
      ∧ (0 < fuel → (metaLoop uni world ua uc attempt fuel).2 = LoopOut.raised ∨
          Ev.logE "No game elements found" ∈ (metaLoop uni world ua uc attempt fuel).1) := by
  intro fuel
  induction fuel with
  | zero =>
    intro uc attempt _
    refine ⟨rfl, ?_, ?_⟩
    · intro data; simp [metaLoop]
    · omega
  | succ n ih =>
    intro uc attempt h
    have h0 : retryFailure (world attempt) := by
      have := h 0 (by omega)
      rwa [Nat.add_zero] at this
    have hshift : ∀ k, k < n → retryFailure (world (attempt + 1 + k)) := by
      intro k hk
      have := h (k + 1) (by omega)
      rwa [show attempt + (k + 1) = attempt + 1 + k by omega] at this
    rcases h0 with hw | hw | hw
    · simp only [metaLoop, hw]
      by_cases hn : n = 0
      · subst hn
        refine ⟨by simp [navCount_cons], ?_, ?_⟩
        · intro data; simp
        · intro _; left; rfl
      · have hrec := ih (uc + 2) (attempt + 1) hshift
        simp only [if_neg hn]
        refine ⟨?_, ?_, ?_⟩
        · simp [navCount_cons, hrec.1]
        · intro data; exact hrec.2.1 data
        · intro _
          rcases hrec.2.2 (by omega) with hr | hr
          · left; exact hr
          · right; simp [hr]
    · simp only [metaLoop, hw]
      by_cases hn : n = 0
      · subst hn
        refine ⟨by simp [navCount_cons], ?_, ?_⟩
        · intro data; simp
        · intro _; left; rfl
      · have hrec := ih (uc + 3) (attempt + 1) hshift
        simp only [if_neg hn]
        refine ⟨?_, ?_, ?_⟩
        · simp [navCount_cons, hrec.1]
        · intro data; exact hrec.2.1 data
        · intro _
          rcases hrec.2.2 (by omega) with hr | hr
          · left; exact hr
          · right; simp [hr]
    · simp only [metaLoop, hw]
      by_cases hn : n = 0
      · subst hn
        refine ⟨by simp [navCount_cons], ?_, ?_⟩
        · intro data; simp
        · intro _; right; simp
      · have hrec := ih (uc + 2) (attempt + 1) hshift
        simp only [List.isEmpty_nil, if_pos, if_neg hn]
        refine ⟨?_, ?_, ?_⟩
        · simp [navCount_cons, hrec.1]
        · intro data; exact hrec.2.1 data
        · intro _
          rcases hrec.2.2 (by omega) with hr | hr
          · left; exact hr
          · right; simp [hr]

theorem uniform_bounds (a b u : ℚ) (hab : a ≤ b) (h0 : 0 ≤ u) (h1 : u ≤ 1) :
    a ≤ uniform a b u ∧ uniform a b u ≤ b := by
  unfold uniform
  constructor
  · nlinarith
  · nlinarith

theorem metaLoop_sleep_bounds (uni : Nat → ℚ) (world : Nat → AttemptWorld) (ua : String)
    (hu : ∀ n, 0 ≤ uni n ∧ uni n ≤ 1) :
    ∀ fuel uc attempt, ∀ ev ∈ (metaLoop uni world ua uc attempt fuel).1, sleepOk ev := by
  intro fuel
  have hb25 : ∀ n, sleepOk (Ev.sleep 2 5 (uniform 2 5 (uni n))) := by
    intro n
    have := uniform_bounds 2 5 (uni n) (by norm_num) (hu n).1 (hu n).2
    exact ⟨Or.inl ⟨rfl, rfl⟩, this.1, this.2⟩
  have hb37 : ∀ n, sleepOk (Ev.sleep 3 7 (uniform 3 7 (uni n))) := by
    intro n
    have := uniform_bounds 3 7 (uni n) (by norm_num) (hu n).1 (hu n).2
    exact ⟨Or.inr ⟨rfl, rfl⟩, this.1, this.2⟩
  induction fuel with
  | zero => intro uc attempt ev hev; simp [metaLoop] at hev
  | succ n ih =>
    intro uc attempt ev hev
    simp only [metaLoop] at hev
    cases h : world attempt with
    | getErr =>
      rw [h] at hev
      by_cases hn : n = 0
      · subst hn
        simp at hev
        rcases hev with rfl | rfl
        · exact hb25 uc
        · trivial
      · simp only [if_neg hn] at hev
        simp at hev
        rcases hev with rfl | rfl | rfl | rfl | hev
        · exact hb25 uc
        · trivial
        · trivial
        · exact hb37 (uc + 1)
        · exact ih (uc + 2) (attempt + 1) ev hev
    | probeTimeout =>
      rw [h] at hev
      by_cases hn : n = 0
      · subst hn
        simp at hev
        rcases hev with rfl | rfl | rfl
        · exact hb25 uc
        · trivial
        · exact hb37 (uc + 1)
      · simp only [if_neg hn] at hev
        simp at hev
        rcases hev with rfl | rfl | rfl | rfl | rfl | hev
        · exact hb25 uc
        · trivial
        · exact hb37 (uc + 1)
        · trivial
        · exact hb37 (uc + 2)
        · exact ih (uc + 3) (attempt + 1) ev hev
    | elements gs =>
      rw [h] at hev
      by_cases he : gs.isEmpty
      · by_cases hn : n = 0
        · subst hn
          simp [he] at hev
          rcases hev with rfl | rfl | rfl | rfl
          · exact hb25 uc
          · trivial
          · exact hb37 (uc + 1)
          · trivial
        · simp only [he, if_pos, if_neg hn] at hev
          simp at hev
          rcases hev with rfl | rfl | rfl | rfl | hev
          · exact hb25 uc
          · trivial
          · exact hb37 (uc + 1)
          · trivial
          · exact ih (uc + 2) (attempt + 1) ev hev
      · by_cases hd : (gs.filterMap id).isEmpty
        · simp only [if_neg he, hd, if_pos] at hev
          simp at hev
          rcases hev with rfl | rfl | rfl | hev | rfl
          · exact hb25 uc
          · trivial
          · exact hb37 (uc + 1)
          · rcases hev with ⟨-, rfl⟩; trivial
          · trivial
        · simp only [if_neg he, hd, if_neg] at hev
          simp at hev
          rcases hev with rfl | rfl | rfl | hev | rfl
          · exact hb25 uc
          · trivial
          · exact hb37 (uc + 1)
          · rcases hev with ⟨-, rfl⟩; trivial
          · trivial

theorem vg_game_rows_spec : ∀ rows,
    (scrape_vgchartz_game_rows rows).1 = (rows.filter vg_rowOk).map vg_toRecord
    ∧ (scrape_vgchartz_game_rows rows).2 = rows.filter (fun r => !vg_rowOk r) := by
  intro rows
  induction rows with
  | nil => exact ⟨rfl, rfl⟩
  | cons c rest ih =>
    by_cases hc : vg_rowOk c <;>
      simp [scrape_vgchartz_game_rows, List.filter_cons, hc, ih.1, ih.2]

theorem vg_rowOk_eq (cols : List String) : vg_rowOk cols = !decide (cols.length < 7) := by
  cases cols with
  | nil => simp [vg_rowOk]
  | cons a t => simp [vg_rowOk]

theorem console_rows_spec : ∀ rows,
    (scrape_vgchartz_console_rows rows).1
      = ((rows.filter vg_rowOk).filter
          (fun cols => console_matches (cols.getD 1 ""))).map console_toRecord
    ∧ (scrape_vgchartz_console_rows rows).2 = rows.filter (fun r => !vg_rowOk r) := by
  intro rows
  induction rows with
  | nil => exact ⟨rfl, rfl⟩
  | cons c rest ih =>
    by_cases hc : vg_rowOk c
    · by_cases hm : console_matches (c.getD 1 "") <;>
        simp [scrape_vgchartz_console_rows, List.filter_cons, hc, hm, ih.1, ih.2,
          -List.getD_eq_getElem?_getD]
    · simp [scrape_vgchartz_console_rows, List.filter_cons, hc, ih.1, ih.2]

theorem navCount_runTailEvs (o : LoopOut) : navCount (runTailEvs o) = 0 := by
  cases o <;> rfl

theorem navCount_runQuitEvs (b : Bool) : navCount (runQuitEvs b) = 0 := by
  cases b <;> rfl

theorem idDraws_runTailEvs (o : LoopOut) : idDraws (runTailEvs o) = [] := by
  cases o <;> rfl

theorem idDraws_runQuitEvs (b : Bool) : idDraws (runQuitEvs b) = [] := by
  cases b <;> rfl

theorem navUAs_runTailEvs (o : LoopOut) : navUAs (runTailEvs o) = [] := by
  cases o <;> rfl

theorem navUAs_runQuitEvs (b : Bool) : navUAs (runQuitEvs b) = [] := by
  cases b <;> rfl

theorem sleepOk_runTailEvs (o : LoopOut) : ∀ ev ∈ runTailEvs o, sleepOk ev := by
  cases o <;> simp [runTailEvs] <;> trivial

theorem sleepOk_runQuitEvs (b : Bool) : ∀ ev ∈ runQuitEvs b, sleepOk ev := by
  cases b
  · simp [runQuitEvs]; trivial
  · simp [runQuitEvs]; constructor <;> trivial

theorem runFile_eq_none (o : LoopOut) (h : ∀ data, o ≠ LoopOut.wrote data) :
    runFile o = none := by
  cases o with
  | wrote data => exact absurd rfl (h data)
  | returned => rfl
  | raised => rfl

/-- C6: for every run in which the automation driver binary cannot be
located, session construction fails (`setup_driver` returns `None` after
logging the missing-ChromeDriver error), the job aborts immediately with
no retry, zero navigation attempts are made, and no output file is
written. -/
theorem C6_driver_unavailable (e : Env) (h : e.driverAvailable = false) :
    navCount (scrape_metacritic_scores e).trace = 0
    ∧ (scrape_metacritic_scores e).file = none
    ∧ (scrape_metacritic_scores e).quitCalled = false
    ∧ (scrape_metacritic_scores e).trace
        = [Ev.idDraw (get_random_user_agent (e.idCh 0)), Ev.logE "ChromeDriver not found"] := by
  refine ⟨?_, ?_, ?_, ?_⟩ <;> simp [scrape_metacritic_scores, h, navCount_cons]

/-- Witness for C6 at a concrete environment with the driver binary
absent. -/
theorem C6_driver_unavailable_witness :
    navCount (scrape_metacritic_scores envNoDriver).trace = 0
    ∧ (scrape_metacritic_scores envNoDriver).file = none :=
  ⟨(C6_driver_unavailable envNoDriver rfl).1, (C6_driver_unavailable envNoDriver rfl).2.1⟩

/-- C5: for every run in which the browser session was successfully
created, teardown (`driver.quit()`) is reached on every exit path of the
orchestrator, the run's primary outcome (the output file) is unaffected
by whether teardown raises, and a teardown error is logged, never
propagated. -/
theorem C5_session_teardown (e : Env) (h : e.driverAvailable = true) :
    (scrape_metacritic_scores e).quitCalled = true
    ∧ (scrape_metacritic_scores { e with quitRaises := true }).file
        = (scrape_metacritic_scores { e with quitRaises := false }).file
    ∧ (e.quitRaises = true →
        Ev.logW "Error while closing driver" ∈ (scrape_metacritic_scores e).trace) := by
  refine ⟨?_, ?_, ?_⟩
  · simp [scrape_metacritic_scores, h]
  · simp [scrape_metacritic_scores, h]
  · intro hq
    simp [scrape_metacritic_scores, h, hq, runQuitEvs]

/-- Witness for C5 at a concrete environment whose teardown raises. -/
theorem C5_session_teardown_witness :
    (scrape_metacritic_scores envQuitRaises).quitCalled = true
    ∧ Ev.logW "Error while closing driver" ∈ (scrape_metacritic_scores envQuitRaises).trace :=
  ⟨(C5_session_teardown envQuitRaises rfl).1,
   (C5_session_teardown envQuitRaises rfl).2.2 rfl⟩

/-- C2: every run issues at most `max_retries = 3` navigation attempts;
when all three attempts fail retryably (so in particular the attempt
with the final index fails), exactly 3 attempts are issued, a terminal
error is reported and no output file is written. -/
theorem C2_max_attempts (e : Env) :
    navCount (scrape_metacritic_scores e).trace ≤ 3
    ∧ (e.driverAvailable = true → (∀ k, k < 3 → retryFailure (e.world k)) →
        navCount (scrape_metacritic_scores e).trace = 3
        ∧ (scrape_metacritic_scores e).file = none
        ∧ ∃ m, Ev.logE m ∈ (scrape_metacritic_scores e).trace) := by
  constructor
  · by_cases h : e.driverAvailable
    · have hle := metaLoop_nav_le e.uni e.world (get_random_user_agent (e.idCh 1)) 3 0 0
      simp [scrape_metacritic_scores, h, navCount_cons, navCount_append,
        navCount_runTailEvs, navCount_runQuitEvs]
      omega
    · simp only [Bool.not_eq_true] at h
      simp [scrape_metacritic_scores, h, navCount_cons]
  · intro h hfail
    have hshift : ∀ k, k < 3 → retryFailure (e.world (0 + k)) := by
      intro k hk
      simpa [Nat.zero_add] using hfail k hk
    have hall := metaLoop_all_fail e.uni e.world (get_random_user_agent (e.idCh 1)) 3 0 0 hshift
    refine ⟨?_, ?_, ?_⟩
    · simp [scrape_metacritic_scores, h, navCount_cons, navCount_append,
        navCount_runTailEvs, navCount_runQuitEvs, hall.1]
    · simp [scrape_metacritic_scores, h, runFile_eq_none _ hall.2.1]
    · rcases hall.2.2 (by omega) with hr | hr
      · refine ⟨"An error occurred", ?_⟩
        simp [scrape_metacritic_scores, h, hr, runTailEvs]
      · refine ⟨"No game elements found", ?_⟩
        simp [scrape_metacritic_scores, h]
        tauto

/-- Witness for C2 at a concrete environment where every attempt raises a
transport error. -/
theorem C2_max_attempts_witness :
    navCount (scrape_metacritic_scores envAllFail).trace = 3
    ∧ (scrape_metacritic_scores envAllFail).file = none :=
  ⟨((C2_max_attempts envAllFail).2 rfl (fun _ _ => Or.inl rfl)).1,
   ((C2_max_attempts envAllFail).2 rfl (fun _ _ => Or.inl rfl)).2.1⟩

/-- C4: the Persistence Writer refuses to write when the record set is
empty; any file it does write consists of the header line — equal to the
field order of the first accepted record — plus one line per record, so
it is never header-only; consequently any output file a Metacritic run
produces is non-empty with header Game, Metascore, Release Date. -/
theorem C4_writer_refuses_empty :
    write_rows [] = none
    ∧ (∀ data file, write_rows data = some file →
        file.length = data.length + 1 ∧ 2 ≤ file.length
        ∧ file.head? = some (data.headI.map Prod.fst))
    ∧ (∀ e f, (scrape_metacritic_scores e).file = some f →
        2 ≤ f.length ∧ f.head? = some ["Game", "Metascore", "Release Date"]) := by
  refine ⟨rfl, ?_, ?_⟩
  · intro data file hw
    cases data with
    | nil => simp [write_rows] at hw
    | cons first rest =>
      unfold write_rows at hw
      simp only [Option.some.injEq] at hw
      subst hw
      refine ⟨by simp, by simp, by simp [List.headI]⟩
  · intro e f hf
    by_cases h : e.driverAvailable
    · simp only [scrape_metacritic_scores, h, if_pos] at hf
      cases hr : (metaLoop e.uni e.world (get_random_user_agent (e.idCh 1)) 0 0 3).2 with
      | wrote data =>
        rw [hr] at hf
        have hne := metaLoop_wrote_ne_nil e.uni e.world
          (get_random_user_agent (e.idCh 1)) 3 0 0 data hr
        cases data with
        | nil => exact absurd rfl hne
        | cons d ds =>
          unfold runFile write_rows at hf
          simp only [List.map_cons, Option.some.injEq] at hf
          subst hf
          refine ⟨by simp, ?_⟩
          simp [metaToDict]
      | returned => rw [hr] at hf; simp [runFile] at hf
      | raised => rw [hr] at hf; simp [runFile] at hf
    · simp only [Bool.not_eq_true] at h
      simp [scrape_metacritic_scores, h] at hf

/-- Witness for C4 at a concrete one-record data set. -/
theorem C4_writer_refuses_empty_witness :
    [["A"], ["x"]].length = [[("A", "x")]].length + 1
    ∧ (2 : Nat) ≤ [["A"], ["x"]].length
    ∧ [["A"], ["x"]].head? = some ([[("A", "x")]].headI.map Prod.fst) :=
  C4_writer_refuses_empty.2.1 [[("A", "x")]] [["A"], ["x"]] rfl

/-- C3: a row with fewer than 7 cells is skipped and logged, and
extraction of all later rows continues; the accepted records are exactly
the well-formed rows in order, the logged rows exactly the malformed
ones; in particular 50 rows of which 3 are under the minimum yield
exactly 47 records. -/
theorem C3_row_skip (rows : List (List String)) :
    (scrape_vgchartz_game_rows rows).1 = (rows.filter vg_rowOk).map vg_toRecord
    ∧ (scrape_vgchartz_game_rows rows).2 = rows.filter (fun r => !vg_rowOk r)
    ∧ (rows.length = 50 →
        (rows.filter (fun r => decide (r.length < 7))).length = 3 →
        (scrape_vgchartz_game_rows rows).1.length = 47) := by
  refine ⟨(vg_game_rows_spec rows).1, (vg_game_rows_spec rows).2, ?_⟩
  intro h50 h3
  have hsplit := List.length_eq_length_filter_add (l := rows)
    (f := fun r => decide (r.length < 7))
  have hok : rows.filter vg_rowOk
      = rows.filter (fun r => !decide (r.length < 7)) :=
    List.filter_congr (fun r _ => vg_rowOk_eq r)
  rw [(vg_game_rows_spec rows).1, List.length_map, hok]
  omega

/-- Witness for C3 at a concrete batch of 47 well-formed and 3 malformed
rows. -/
theorem C3_row_skip_witness :
    (scrape_vgchartz_game_rows rows50).1.length = 47 :=
  (C3_row_skip rows50).2.2 (by decide) (by decide)

/-- C9: in the console-sales scraper, malformed rows are logged and
skipped; a well-formed row (at least 7 cells) is accepted exactly when
its name cell (index 1) contains one of the 12 fixed Nintendo console
names as a substring, and a well-formed row failing this filter is
dropped with no log line (the log output contains only the malformed
rows). -/
theorem C9_console_filter :
    (∀ rows,
      (scrape_vgchartz_console_rows rows).1
        = ((rows.filter vg_rowOk).filter
            (fun cols => console_matches (cols.getD 1 ""))).map console_toRecord
      ∧ (scrape_vgchartz_console_rows rows).2 = rows.filter (fun r => !vg_rowOk r))
    ∧ NINTENDO_CONSOLES.length = 12
    ∧ (∀ cols, vg_rowOk cols = true →
        ((scrape_vgchartz_console_rows [cols]).1 ≠ [] ↔
          console_matches (cols.getD 1 "") = true)) := by
  refine ⟨console_rows_spec, rfl, ?_⟩
  intro cols hok
  constructor
  · intro hne
    by_contra hm
    simp only [Bool.not_eq_true] at hm
    simp [scrape_vgchartz_console_rows, hok, hm,
      -List.getD_eq_getElem?_getD] at hne
  · intro hm
    simp [scrape_vgchartz_console_rows, hok, hm, -List.getD_eq_getElem?_getD]

/-- Witness for C9 at a concrete well-formed row naming the Switch. -/
theorem C9_console_filter_witness :
    (scrape_vgchartz_console_rows [consoleRowSwitch]).1 ≠ [] :=
  (C9_console_filter.2.2 consoleRowSwitch (by decide)).mpr (by decide)

/-- C10: in the OpenCritic scraper every fetched game is appended to the
record set; a game whose `firstReleaseDate` cannot be parsed by
`datetime.fromisoformat` is still appended, its Release Date coerced to
the empty string, while a parseable date is reformatted as
`%Y-%m-%d`. -/
theorem C10_date_parse_swallow :
    (∀ games, oc_extract games = (games.filterMap id).map processGame)
    ∧ (∀ g, fromisoformat (replaceZ (g.firstReleaseDate.getD "").toList) = none →
        (processGame g).releaseDate = "")
    ∧ (∀ g ymd, (g.firstReleaseDate.getD "") ≠ "" →
        fromisoformat (replaceZ (g.firstReleaseDate.getD "").toList) = some ymd →
        (processGame g).releaseDate = strftimeYmd ymd) := by
  refine ⟨?_, ?_, ?_⟩
  · intro games
    induction games with
    | nil => rfl
    | cons g rest ih =>
      cases g with
      | none => simpa [oc_extract] using ih
      | some g => simp [oc_extract, ih]
  · intro g hp
    unfold processGame formatReleaseDate
    simp only [String.toList] at hp
    by_cases hr : (g.firstReleaseDate.getD "") = ""
    · simp [hr]
    · simp [hr, hp]
  · intro g ymd hne hp
    unfold processGame formatReleaseDate
    simp only [String.toList] at hp
    simp [hne, hp]

/-- Witness for C10 at one unparseable and one parseable release date. -/
theorem C10_date_parse_swallow_witness :
    (processGame gameBadDate).releaseDate = ""
    ∧ (processGame gameGoodDate).releaseDate = "2017-03-03" := by
  constructor
  · exact C10_date_parse_swallow.2.1 gameBadDate (by decide)
  · have := C10_date_parse_swallow.2.2 gameGoodDate (2017, 3, 3) (by decide) (by decide)
    rw [this]
    decide

theorem navUAs_append (s t : List Ev) : navUAs (s ++ t) = navUAs s ++ navUAs t :=
  List.filterMap_append s t navUA?

theorem navUAs_idDraw_cons (ua : String) (t : List Ev) :
    navUAs (Ev.idDraw ua :: t) = navUAs t := by
  simp [navUAs, navUA?]

theorem metaLoop_step_noElements (uni : Nat → ℚ) (world : Nat → AttemptWorld)
    (ua : String) (uc attempt n : Nat) (hn : n ≠ 0)
    (hw : world attempt = AttemptWorld.elements []) :
    metaLoop uni world ua uc attempt (n + 1)
      = (Ev.sleep 2 5 (uniform 2 5 (uni uc)) :: Ev.nav ua ::
          Ev.sleep 3 7 (uniform 3 7 (uni (uc + 1))) ::
          Ev.logW "No game elements found, retrying" ::
          (metaLoop uni world ua (uc + 2) (attempt + 1) n).1,
        (metaLoop uni world ua (uc + 2) (attempt + 1) n).2) := by
  conv_lhs => rw [metaLoop]
  rw [hw]
  simp [hn]

theorem metaLoop_step_emptyData (uni : Nat → ℚ) (world : Nat → AttemptWorld)
    (ua : String) (uc attempt n : Nat) (gs : List (Option MetaRecord))
    (hw : world attempt = AttemptWorld.elements gs) (hne : gs.isEmpty = false)
    (hdata : (gs.filterMap id).isEmpty = true) :
    metaLoop uni world ua uc attempt (n + 1)
      = (Ev.sleep 2 5 (uniform 2 5 (uni uc)) :: Ev.nav ua ::
          Ev.sleep 3 7 (uniform 3 7 (uni (uc + 1))) ::
          ((gs.filter (fun g => g.isNone)).map (fun _ => Ev.logW "Error processing game") ++
            [Ev.logW "No game data found."]), LoopOut.returned) := by
  conv_lhs => rw [metaLoop]
  rw [hw]
  simp [hne, hdata]

/-- C1 counterexample: in `envRetryOnce` the first attempt fails with a
transport error and a second attempt is issued, yet the identity
provider is not re-invoked between the attempts: the whole run performs
exactly two identity draws — both during session construction, using
choice indices 0 and 1 — and both navigation attempts present the same
user agent, even though the next candidate draw (choice index 2) would
have produced a different identity.  This contradicts the claim that a
failed attempt is followed by re-invoking the identity provider. -/
theorem C1_counterexample :
    navUAs (scrape_metacritic_scores envRetryOnce).trace
      = [get_random_user_agent 1, get_random_user_agent 1]
    ∧ idDraws (scrape_metacritic_scores envRetryOnce).trace
      = [get_random_user_agent 0, get_random_user_agent 1]
    ∧ get_random_user_agent 2 ≠ get_random_user_agent 1 := by
  refine ⟨?_, ?_, by decide⟩
  · simp [scrape_metacritic_scores, envRetryOnce, metaLoop, navUAs, navUA?, uniform,
      runTailEvs, runQuitEvs, sampleRec, get_random_user_agent, user_agents]
  · simp [scrape_metacritic_scores, envRetryOnce, metaLoop, idDraws, idDrawUA?, uniform,
      runTailEvs, runQuitEvs, sampleRec, get_random_user_agent, user_agents]

/-- C1 amended: the identity provider is invoked exactly twice per run,
both times during session construction (once for the `--user-agent`
launch option, once for the CDP user-agent override), before the first
navigation; it is never re-invoked after a failed attempt, so every
navigation attempt of a run presents the same client identity — the one
chosen by the second draw. -/
theorem C1_amended_identity_fixed (e : Env) (h : e.driverAvailable = true) :
    (∃ rest, (scrape_metacritic_scores e).trace
        = Ev.idDraw (get_random_user_agent (e.idCh 0))
          :: Ev.idDraw (get_random_user_agent (e.idCh 1)) :: rest
      ∧ idDraws rest = [])
    ∧ ∀ x ∈ navUAs (scrape_metacritic_scores e).trace,
        x = get_random_user_agent (e.idCh 1) := by
  constructor
  · refine ⟨(metaLoop e.uni e.world (get_random_user_agent (e.idCh 1)) 0 0 3).1
        ++ runTailEvs (metaLoop e.uni e.world (get_random_user_agent (e.idCh 1)) 0 0 3).2
        ++ runQuitEvs e.quitRaises, ?_, ?_⟩
    · simp [scrape_metacritic_scores, h]
    · have h1 := metaLoop_no_idDraw e.uni e.world (get_random_user_agent (e.idCh 1)) 3 0 0
      have h2 := idDraws_runTailEvs
        (metaLoop e.uni e.world (get_random_user_agent (e.idCh 1)) 0 0 3).2
      have h3 := idDraws_runQuitEvs e.quitRaises
      simp only [idDraws, List.filterMap_append] at h1 h2 h3 ⊢
      rw [h1, h2, h3]
      rfl
  · intro x hx
    have ht : (scrape_metacritic_scores e).trace
        = Ev.idDraw (get_random_user_agent (e.idCh 0))
          :: Ev.idDraw (get_random_user_agent (e.idCh 1))
          :: ((metaLoop e.uni e.world (get_random_user_agent (e.idCh 1)) 0 0 3).1
            ++ runTailEvs (metaLoop e.uni e.world (get_random_user_agent (e.idCh 1)) 0 0 3).2
            ++ runQuitEvs e.quitRaises) := by
      simp [scrape_metacritic_scores, h]
    rw [ht, navUAs_idDraw_cons, navUAs_idDraw_cons, navUAs_append, navUAs_append,
      navUAs_runTailEvs, navUAs_runQuitEvs] at hx
    simp only [List.append_nil] at hx
    exact metaLoop_navUA_eq e.uni e.world (get_random_user_agent (e.idCh 1)) 3 0 0 x hx

/-- Witness for the amended C1 at a concrete environment: the identity
presented by a navigation of `envRetryOnce` is the one chosen by the
second construction-time draw. -/
theorem C1_amended_identity_fixed_witness :
    get_random_user_agent 1 = get_random_user_agent (envRetryOnce.idCh 1) :=
  (C1_amended_identity_fixed envRetryOnce rfl).2 (get_random_user_agent 1)
    (by simp [scrape_metacritic_scores, envRetryOnce, metaLoop, navUAs, navUA?, uniform,
      runTailEvs, runQuitEvs, sampleRec, get_random_user_agent, user_agents])

/-- C7 counterexample: in `envEmptyData` the readiness probe succeeds on
the first attempt and game elements are present, but zero records are
accepted (every element raises during extraction); the run then stops
after a single navigation attempt with a warning and no file, although
two retry attempts remained in the budget and would have succeeded —
the empty record set is not retried like a navigation failure. -/
theorem C7_counterexample :
    navCount (scrape_metacritic_scores envEmptyData).trace = 1
    ∧ (scrape_metacritic_scores envEmptyData).file = none
    ∧ Ev.logW "No game data found." ∈ (scrape_metacritic_scores envEmptyData).trace := by
  refine ⟨?_, ?_, ?_⟩ <;>
    simp [scrape_metacritic_scores, envEmptyData, metaLoop, navCount, runTailEvs,
      runQuitEvs, runFile, uniform, List.countP_cons, isNavEv, navUA?, sampleRec]

/-- C7 amended: after a successful probe, zero game *elements*
(`elements []`) is retried like a navigation failure — a second attempt
follows; but when elements are found and zero records are accepted, the
run terminates at once with no retry and no output file. -/
theorem C7_amended_empty_result (e : Env) (h : e.driverAvailable = true) :
    (e.world 0 = AttemptWorld.elements [] →
      2 ≤ navCount (scrape_metacritic_scores e).trace)
    ∧ (∀ gs, e.world 0 = AttemptWorld.elements gs → gs ≠ [] → gs.filterMap id = [] →
        navCount (scrape_metacritic_scores e).trace = 1
        ∧ (scrape_metacritic_scores e).file = none) := by
  have htrace : navCount (scrape_metacritic_scores e).trace
      = navCount (metaLoop e.uni e.world (get_random_user_agent (e.idCh 1)) 0 0 3).1 := by
    simp [scrape_metacritic_scores, h, navCount_cons, navCount_append,
      navCount_runTailEvs, navCount_runQuitEvs]
  have hfile : (scrape_metacritic_scores e).file
      = runFile (metaLoop e.uni e.world (get_random_user_agent (e.idCh 1)) 0 0 3).2 := by
    simp [scrape_metacritic_scores, h]
  have h3 : metaLoop e.uni e.world (get_random_user_agent (e.idCh 1)) 0 0 3
      = metaLoop e.uni e.world (get_random_user_agent (e.idCh 1)) 0 0 (2 + 1) := rfl
  constructor
  · intro hw
    have hpos := metaLoop_nav_pos e.uni e.world (get_random_user_agent (e.idCh 1)) 2 2 1
      (by omega)
    have hstep := metaLoop_step_noElements e.uni e.world (get_random_user_agent (e.idCh 1))
      0 0 2 (by omega) hw
    rw [htrace, h3, hstep]
    simp only [navCount] at hpos ⊢
    simp [List.countP_cons]
    simpa using hpos
  · intro gs hw hne hdata
    have hisEmpty : gs.isEmpty = false := by
      cases gs with
      | nil => exact absurd rfl hne
      | cons a t => rfl
    have hdataEmpty : (gs.filterMap id).isEmpty = true := by simp [hdata]
    have hstep := metaLoop_step_emptyData e.uni e.world (get_random_user_agent (e.idCh 1))
      0 0 2 gs hw hisEmpty hdataEmpty
    constructor
    · rw [htrace, h3, hstep]
      simp [navCount_cons, navCount_append, navCount_replicate_logW, navCount_rowLogs]
    · rw [hfile, h3, hstep]
      rfl

/-- Witness for the amended C7 at a concrete environment whose first
attempt finds zero game elements. -/
theorem C7_amended_empty_result_witness :
    2 ≤ navCount (scrape_metacritic_scores envNoElements).trace :=
  (C7_amended_empty_result envNoElements rfl).1 rfl

/-- C8 counterexample: in `envJitterHigh` the delay slept between the
failed first attempt and the second navigation attempt is 7 seconds —
the post-failure `uniform(3,7)` sleep — which lies outside the claimed
jitter bounds [2,5]. -/
theorem C8_counterexample :
    (7 : ℚ) ∈ interAttemptDelays (scrape_metacritic_scores envJitterHigh).trace
    ∧ ¬((2 : ℚ) ≤ 7 ∧ (7 : ℚ) ≤ 5) := by
  constructor
  · simp [scrape_metacritic_scores, envJitterHigh, metaLoop, interAttemptDelays, interGo,
      uniform, runTailEvs, runQuitEvs, sampleRec]
  · norm_num

/-- C8 amended: every delay the orchestrator sleeps is drawn either from
the pre-attempt jitter window [2,5] or from the post-load and
post-failure window [3,7], and lies within the window it was drawn from;
hence every recorded delay lies within [2,7], but delays between a
failed attempt and the next navigation are not confined to [2,5]. -/
theorem C8_amended_jitter_bounds (e : Env) (hu : ∀ n, 0 ≤ e.uni n ∧ e.uni n ≤ 1) :
    (∀ ev ∈ (scrape_metacritic_scores e).trace, sleepOk ev)
    ∧ (∀ lo hi d, Ev.sleep lo hi d ∈ (scrape_metacritic_scores e).trace →
        2 ≤ d ∧ d ≤ 7) := by
  have hall : ∀ ev ∈ (scrape_metacritic_scores e).trace, sleepOk ev := by
    intro ev hev
    by_cases h : e.driverAvailable
    · have ht : (scrape_metacritic_scores e).trace
          = Ev.idDraw (get_random_user_agent (e.idCh 0))
            :: Ev.idDraw (get_random_user_agent (e.idCh 1))
            :: ((metaLoop e.uni e.world (get_random_user_agent (e.idCh 1)) 0 0 3).1
              ++ runTailEvs (metaLoop e.uni e.world (get_random_user_agent (e.idCh 1)) 0 0 3).2
              ++ runQuitEvs e.quitRaises) := by
        simp [scrape_metacritic_scores, h]
      rw [ht] at hev
      simp only [List.mem_cons, List.mem_append] at hev
      rcases hev with rfl | rfl | (hev | hev) | hev
      · trivial
      · trivial
      · exact metaLoop_sleep_bounds e.uni e.world (get_random_user_agent (e.idCh 1))
          hu 3 0 0 ev hev
      · exact sleepOk_runTailEvs _ ev hev
      · exact sleepOk_runQuitEvs _ ev hev
    · simp only [Bool.not_eq_true] at h
      simp [scrape_metacritic_scores, h] at hev
      rcases hev with rfl | rfl <;> trivial
  refine ⟨hall, ?_⟩
  intro lo hi d hmem
  have hok := hall (Ev.sleep lo hi d) hmem
  rcases hok with ⟨hw | hw, hlo, hhi⟩ <;> rcases hw with ⟨rfl, rfl⟩ <;>
    constructor <;> linarith

/-- Witness for the amended C8 at a concrete environment: the 7-second
post-failure delay of `envJitterHigh` is within [2,7]. -/
theorem C8_amended_jitter_bounds_witness :
    (2 : ℚ) ≤ 7 ∧ (7 : ℚ) ≤ 7 :=
  (C8_amended_jitter_bounds envJitterHigh
      (by intro n; constructor <;> simp [envJitterHigh])).2 3 7 7
    (by simp [scrape_metacritic_scores, envJitterHigh, metaLoop, uniform,
      runTailEvs, runQuitEvs, sampleRec])
